import Mathlib

/-!
# Verification of the multi-agent query pipeline

A shallow embedding of the repository's query-processing pipeline
(router, web-search agent, file-analysis agent, synthesizer,
orchestrator, vector store), with theorems settling the frozen claims
about it.

Modelling conventions, used throughout:

* Python dicts whose key sets are fixed at each production site are
  structures; a key that some producers omit and all consumers read
  with `dict.get(key, default)` is a structure field whose default
  value is that `get` default.
* A call into an external service (LLM, HTTP search, loader,
  embedding index) is an oracle argument of type `Except String α`
  (or a dedicated inductive): `.error e` is the call raising an
  exception whose `str()` is `e`.
* `time.time()` timestamps are not modelled: no claim mentions them.
* Numeric scores (Python floats) are modelled as rationals `ℚ`; the
  claims are about the exact arithmetic the code performs.
-/

/-!
### Python string primitives

Core `String` functions (`toLower`, `trim`, `splitOn`, `take`, …) are
re-implemented over `List Char` so that every definition evaluates
inside the kernel (`decide` / `rfl` on concrete inputs). Each mirrors
the CPython behaviour the source relies on. -/

/-- Whether the first list heads the second (character-wise). -/
def leadsWith : List Char → List Char → Bool
  | [], _ => true
  | _ :: _, [] => false
  | a :: as, b :: bs => a == b && leadsWith as bs

/-- Whether `needle` occurs contiguously inside the second list. -/
def occursIn (needle : List Char) : List Char → Bool
  | [] => needle.isEmpty
  | b :: bs => leadsWith needle (b :: bs) || occursIn needle bs

/-- Python's `needle in haystack` on strings (substring containment). -/
def strContains (haystack needle : String) : Bool :=
  occursIn needle.toList haystack.toList

/-- Python's `str.startswith(t)`. -/
def strStartsWith (s t : String) : Bool :=
  leadsWith t.toList s.toList

/-- Python's `str.lower()` (over the ASCII alphabet the source uses). -/
def pyLower (s : String) : String := String.mk (s.toList.map Char.toLower)

/-- Python's `str.upper()` (over the ASCII alphabet the source uses). -/
def pyUpper (s : String) : String := String.mk (s.toList.map Char.toUpper)

/-- Python's `str.strip()`: drop whitespace from both ends. -/
def pyStrip (s : String) : String :=
  String.mk (((s.toList.dropWhile Char.isWhitespace).reverse.dropWhile
    Char.isWhitespace).reverse)

/-- Python's `s[:n]` (code-point slicing). -/
def pyTake (s : String) (n : Nat) : String := String.mk (s.toList.take n)

/-- Split a character list at every separator character, keeping empty
pieces (the behaviour of Python's `str.split(sep)` with an explicit
separator). -/
def splitWhen (p : Char → Bool) : List Char → List (List Char)
  | [] => [[]]
  | c :: rest =>
    let r := splitWhen p rest
    if p c then [] :: r else (c :: r.headD []) :: r.tail

/-- Python's `str.split('\n')`. -/
def splitLines (s : String) : List String :=
  (splitWhen (fun c => c == '\n') s.toList).map String.mk

/-- Python's `str.split()` with no argument: split on whitespace runs,
dropping empty pieces. -/
def pySplitWhitespace (s : String) : List String :=
  ((splitWhen Char.isWhitespace s.toList).map String.mk).filter (fun w => w ≠ "")

/-! ## Router (src/agents/router.py)

`QueryRouter.classify_query` asks the LLM for a label and degrades to
`_fallback_classification`. The LLM call is an oracle: `unavailable`
models `use_llm == False` (import failure at init), `raised e` the
`invoke` call raising, `returned c` the call returning content `c`. -/

inductive LLMCall where
  | unavailable
  | raised (msg : String)
  | returned (content : String)
  deriving DecidableEq, Repr

/-- `router.py` line 104: the recency / web indicators checked when files
are attached. -/
def web_indicators_files : List String :=
  ["current", "latest", "recent", "today", "now", "weather", "news"]

/-- `router.py` lines 110-115: the indicators checked when no files are
attached. -/
def web_indicators_general : List String :=
  ["what is", "who is", "when did", "where is", "how to",
   "current", "latest", "recent", "today", "now",
   "weather", "news", "stock", "price", "capital of",
   "won", "championship", "election", "covid", "pandemic"]

/-- `QueryRouter._fallback_classification` (router.py lines 88-121). -/
def fallback_classification (query : String) (has_files : Bool) : String :=
  let query_lower := pyLower query
  if has_files then
    if web_indicators_files.any (fun ind => strContains query_lower ind) then "BOTH"
    else "FILE_ANALYSIS"
  else
    if web_indicators_general.any (fun ind => strContains query_lower ind) then "WEB_SEARCH"
    else "WEB_SEARCH"

def valid_choices : List String := ["WEB_SEARCH", "FILE_ANALYSIS", "BOTH"]

/-- The label the LLM branch extracts from the response:
`lines[0].strip().upper()` of the stripped content (router.py lines 67-71). -/
def llmLabel (content : String) : String :=
  pyUpper (pyStrip ((splitLines (pyStrip content)).headD ""))

/-- `QueryRouter.classify_query` (router.py lines 45-86). -/
def classify_query (llm : LLMCall) (query : String) (has_files : Bool) :
    String × String :=
  match llm with
  | .unavailable =>
      (fallback_classification query has_files,
       "Using rule-based classification (LLM unavailable)")
  | .raised e =>
      (fallback_classification query has_files, "Fallback due to error: " ++ e)
  | .returned content =>
      let lines := splitLines (pyStrip content)
      let agent_choice :=
        if llmLabel content ∈ valid_choices then llmLabel content
        else fallback_classification query has_files
      let reasoning :=
        if 1 < lines.length then pyStrip (String.intercalate "\n" lines.tail)
        else "No reasoning provided"
      (agent_choice, reasoning)

/-- Whether the query contains one of the recency keywords the
has-files fallback branch checks. -/
def hasRecencyKeyword (query : String) : Bool :=
  web_indicators_files.any (fun ind => strContains (pyLower query) ind)

/-- **C2.** Whenever the LLM is unavailable, raises, or returns an
unrecognized label, `classify_query` returns (totally, no exception)
the rule-based fallback choice, and that choice follows the rule-based
policy: files + recency keyword → BOTH, files otherwise →
FILE_ANALYSIS, no files → WEB_SEARCH (never FILE_ANALYSIS). -/
theorem classify_query_degrades_to_rule_based_policy
    (llm : LLMCall) (query : String) (has_files : Bool)
    (h : llm = .unavailable ∨ (∃ e, llm = .raised e) ∨
         (∃ c, llm = .returned c ∧ llmLabel c ∉ valid_choices)) :
    (classify_query llm query has_files).1 = fallback_classification query has_files
    ∧ (has_files = true → hasRecencyKeyword query = true →
        (classify_query llm query has_files).1 = "BOTH")
    ∧ (has_files = true → hasRecencyKeyword query = false →
        (classify_query llm query has_files).1 = "FILE_ANALYSIS")
    ∧ (has_files = false →
        (classify_query llm query has_files).1 = "WEB_SEARCH") := by
  have hfb : (classify_query llm query has_files).1 =
      fallback_classification query has_files := by
    rcases h with h | ⟨e, h⟩ | ⟨c, h, hc⟩ <;> subst h
    · rfl
    · rfl
    · simp only [classify_query]
      simp [hc]
  refine ⟨hfb, ?_, ?_, ?_⟩
  · intro hf hr
    rw [hfb]
    simp only [fallback_classification, hasRecencyKeyword] at hr ⊢
    simp [hf, hr]
  · intro hf hr
    rw [hfb]
    simp only [fallback_classification, hasRecencyKeyword] at hr ⊢
    simp [hf, hr]
  · intro hf
    rw [hfb]
    simp only [fallback_classification]
    simp [hf, ite_self]

/-- Witness for C2 at concrete inputs: a raising LLM with files and a
recency keyword routes to BOTH, and with no files an unavailable LLM
routes to WEB_SEARCH. -/
theorem classify_query_degrades_witness :
    (classify_query (.raised "boom") "what changed today" true).1 = "BOTH"
    ∧ (classify_query .unavailable "summarize my notes" false).1 = "WEB_SEARCH" := by
  constructor
  · exact (classify_query_degrades_to_rule_based_policy (.raised "boom")
      "what changed today" true (Or.inr (Or.inl ⟨"boom", rfl⟩))).2.1 rfl (by decide)
  · exact (classify_query_degrades_to_rule_based_policy .unavailable
      "summarize my notes" false (Or.inl rfl)).2.2.2 rfl

/-! ## Shared data model

The result dictionaries the agents exchange (see the conventions in
the header: absent keys are modelled by the `dict.get` defaults the
consumers use). -/

/-- One web search result (`web_search_agent.py` lines 70-80, and the
synthetic error entries of lines 92/94). `error` is `result.get("error",
False)`. The `timestamp` float is not modelled. -/
structure SearchResult where
  rank : Nat
  title : String
  url : String
  snippet : String
  source : String
  error : Bool := false
  deriving DecidableEq, Repr

/-- A source reference inside `extracted_info` (`web_search_agent.py`
line 104). -/
structure SourceRef where
  title : String
  url : String
  rank : Nat
  deriving DecidableEq, Repr

/-- The `extracted_info` dictionary (`web_search_agent.py` lines 99,
125 and the orchestrator's degraded literal at `orchestrator.py` line
130, which sets only `summary`; the other keys default as the
consumers' `get` calls read them). -/
structure ExtractedInfo where
  summary : String
  key_facts : List String := []
  sources : List SourceRef := []
  confidence : ℚ := 0
  total_results : Nat := 0
  deriving DecidableEq, Repr

/-- The web agent's result dictionary as the synthesizer and
orchestrator consume it (`results`, `extracted_info`, optional
`error`; `search_type`/`agent_type` tags are carried but uninspected). -/
structure WebResults where
  results : List SearchResult
  extracted_info : ExtractedInfo
  error : Option String := none
  search_type : String := ""
  agent_type : String := ""
  deriving DecidableEq, Repr

/-- Metadata attached to a retrieved file chunk; `file_path` is read
with `metadata.get('file_path', ...)` defaults at each use site. -/
structure ChunkMetadata where
  file_path : Option String := none
  deriving DecidableEq, Repr

/-- One retrieved file chunk (`file_analysis_agent.py` lines 329-334 /
369-374). -/
structure FileSearchResult where
  content : String
  metadata : ChunkMetadata := {}
  similarity_score : ℚ := 0
  source : String := "file_analysis"
  deriving DecidableEq, Repr

/-- One per-file processing entry (`file_analysis_agent.py` lines
402-406); of the metadata only what the synthesizer's formatter reads
is kept. -/
structure ProcessingMetadata where
  file_type : String := "unknown"
  page_count : Nat := 0
  rows : Nat := 0
  columns : Nat := 0
  image_size : String := "Unknown"
  error : String := "Unknown error"
  deriving DecidableEq, Repr

structure ProcessingResult where
  file_path : String
  success : Bool
  metadata : ProcessingMetadata := {}
  deriving DecidableEq, Repr

/-- The file agent's result dictionary (`file_analysis_agent.py` lines
443-453, the orchestrator's empty literal at lines 145-154 and its
degraded literal at lines 162-169). -/
structure FileResults where
  query : String := ""
  files_processed : Nat := 0
  processing_results : List ProcessingResult := []
  total_chunks : Nat := 0
  vectorstore_built : Bool := false
  search_results : List FileSearchResult := []
  error : Option String := none
  agent_type : String := ""
  deriving DecidableEq, Repr

/-- A citation (`synthesizer.py` lines 284-289 / 295-300). `type` is
`"web"` or `"file"`. -/
structure Citation where
  type : String
  title : String
  url : String
  snippet : String
  deriving DecidableEq, Repr

/-- The synthesized response (`synthesizer.py` lines 207-219 and the
degraded literals at lines 222-235 and `orchestrator.py` lines
190-196). The `sources` sub-dictionary is flattened into two booleans;
the `timestamp` float is not modelled. -/
structure SynthesizedResponse where
  query : String
  answer : String
  context_used : String := ""
  confidence : ℚ
  citations : List Citation
  sources_web : Bool := false
  sources_file : Bool := false
  synthesis_method : String := ""
  error : Option String := none
  deriving DecidableEq, Repr

/-! ## Synthesizer (src/agents/synthesizer.py)

`ResponseSynthesizer` formats the two agents' outputs into a context
block, calls the LLM (or a plain-text fallback), and attaches a
confidence score and citations computed from the structured inputs. -/

/-- `f"{i}. {item}"` lines for `enumerate(items, start)`. -/
def numberedItems (start : Nat) : List String → List String
  | [] => []
  | item :: rest => (toString start ++ ". " ++ item) :: numberedItems (start + 1) rest

/-- Abstract stand-in for CPython's `f"{x:.3f}"` float rendering; none
of the claims depend on its digits, only on the surrounding string
structure. -/
def format3f (q : ℚ) : String := toString q.num ++ "/" ++ toString q.den

/-- `os.path.basename` for the POSIX paths the repository handles. -/
def pyBasename (p : String) : String := ((p.splitOn "/").getLastD p)

/-- `ResponseSynthesizer.format_web_search_context` (synthesizer.py
lines 52-86). `web_results.get('extracted_info', {})` is truthy on
every producing path, so the summary block is always emitted. -/
def format_web_search_context (web_results : Option WebResults) : String :=
  match web_results with
  | none => "No web search results available."
  | some w =>
    if w.results = [] then "No web search results available."
    else
      let parts1 := ["=== WEB SEARCH RESULTS ===",
                     "Summary: " ++ w.extracted_info.summary]
      let parts2 := parts1 ++
        (if w.extracted_info.key_facts ≠ [] then
          "Key Facts:" :: numberedItems 1 w.extracted_info.key_facts
        else [])
      let parts3 := parts2 ++ (w.results.take 3).foldl (fun acc r =>
        if r.error then acc
        else acc ++ ["\nSource: " ++ r.title, "URL: " ++ r.url,
                     "Content: " ++ r.snippet]) []
      String.intercalate "\n" parts3

/-- `ResponseSynthesizer.format_file_analysis_context` (synthesizer.py
lines 88-142). -/
def format_file_analysis_context (file_results : Option FileResults) : String :=
  match file_results with
  | none => "No file analysis results available."
  | some f =>
    let parts1 := ["=== FILE ANALYSIS RESULTS ===",
                   "Files processed: " ++ toString f.files_processed,
                   "Text chunks created: " ++ toString f.total_chunks]
    let parts2 :=
      if f.search_results ≠ [] then
        parts1 ++ ["\nRelevant content from files:"] ++
          (List.enumFrom 1 f.search_results).foldl (fun acc ri =>
            acc ++ ["\n" ++ toString ri.1 ++ ". Similarity Score: " ++
                      format3f ri.2.similarity_score,
                    "Source: " ++ ri.2.metadata.file_path.getD "Unknown file",
                    "Content: " ++ ri.2.content]) []
      else
        parts1 ++ f.processing_results.foldl (fun acc r =>
          if r.success then
            acc ++ ["\nFile: " ++ r.file_path, "Type: " ++ r.metadata.file_type] ++
              (if r.metadata.file_type = "pdf" then
                ["Pages: " ++ toString r.metadata.page_count]
              else if r.metadata.file_type = "tabular" then
                ["Data: " ++ toString r.metadata.rows ++ " rows, " ++
                   toString r.metadata.columns ++ " columns"]
              else if r.metadata.file_type = "image" then
                ["Image size: " ++ r.metadata.image_size]
              else [])
          else
            acc ++ ["\nFile: " ++ r.file_path ++ " - Error: " ++ r.metadata.error]) []
    String.intercalate "\n" parts2

/-- `ResponseSynthesizer.combine_contexts` (synthesizer.py lines
144-169). -/
def combine_contexts (web_results : Option WebResults)
    (file_results : Option FileResults) : String :=
  let contexts :=
    (match web_results with
     | some w => [format_web_search_context (some w)]
     | none => []) ++
    (match file_results with
     | some f => [format_file_analysis_context (some f)]
     | none => [])
  if contexts = [] then "No context available from any agent."
  else String.intercalate "\n\n" contexts

/-- `ResponseSynthesizer._simple_text_synthesis` (synthesizer.py lines
304-336): keep the substantial lines of the context and number the
first five. -/
def simple_text_synthesis (query context : String) : String :=
  let key_info := (splitLines context).filterMap (fun l =>
    let t := pyStrip l
    if t = "" || strStartsWith t "===" || strStartsWith t "Source:" ||
        strStartsWith t "URL:" then none
    else if 20 < t.length then some t
    else none)
  if key_info ≠ [] then
    "Based on the available information:\n\n" ++
      String.join ((numberedItems 1 (key_info.take 5)).map (fun l => l ++ "\n")) ++
      (if 5 < key_info.length then
        "\n... and " ++ toString (key_info.length - 5) ++ " more pieces of information."
      else "")
  else
    "I found some information related to your query '" ++ query ++
      "', but I'm unable to provide a detailed synthesis at the moment. " ++
      "The raw information is available in the context."

/-- `ResponseSynthesizer._calculate_confidence` (synthesizer.py lines
237-264). -/
def calculate_confidence (web_results : Option WebResults)
    (file_results : Option FileResults) : ℚ :=
  let confidence : ℚ := 0
  let confidence :=
    match web_results with
    | some w => confidence + w.extracted_info.confidence * 0.6
    | none => confidence
  let confidence :=
    match file_results with
    | some f =>
      if f.search_results ≠ [] then
        confidence +
          ((f.search_results.map (fun r => r.similarity_score)).sum /
            (f.search_results.length : ℚ)) * 0.4
      else confidence
    | none => confidence
  min 1 confidence

/-- `result.get('snippet', '')[:100] + '...' if len(...) > 100 else ...`
(synthesizer.py lines 288 and 299). -/
def truncateSnippet (s : String) : String :=
  if 100 < s.length then pyTake s 100 ++ "..." else s

/-- The citation built for one web search result (synthesizer.py lines
284-289). -/
def webCitation (r : SearchResult) : Citation :=
  { type := "web", title := r.title, url := r.url,
    snippet := truncateSnippet r.snippet }

/-- The citation built for one retrieved file chunk (synthesizer.py
lines 295-300). -/
def fileCitation (r : FileSearchResult) : Citation :=
  let file_path := r.metadata.file_path.getD "Unknown file"
  { type := "file", title := "File: " ++ pyBasename file_path, url := file_path,
    snippet := truncateSnippet r.content }

/-- `not result.get('error', False) and result.get('url')`
(synthesizer.py line 283): a web result is citable when it is not an
error entry and its url is non-empty. -/
def citableWeb (r : SearchResult) : Bool := !r.error && r.url ≠ ""

/-- `ResponseSynthesizer._extract_citations` (synthesizer.py lines
266-302), with the two Python `for` loops as folds. -/
def extract_citations (web_results : Option WebResults)
    (file_results : Option FileResults) : List Citation :=
  let citations : List Citation := []
  let citations :=
    match web_results with
    | some w =>
      if w.results ≠ [] then
        w.results.foldl (fun acc r =>
          if citableWeb r then acc ++ [webCitation r] else acc) citations
      else citations
    | none => citations
  match file_results with
  | some f =>
    if f.search_results ≠ [] then
      f.search_results.foldl (fun acc r => acc ++ [fileCitation r]) citations
    else citations
  | none => citations

/-- `ResponseSynthesizer.synthesize_response` (synthesizer.py lines
171-235). The LLM oracle: `.unavailable` is `use_llm == False`,
`.raised e` the `invoke` call raising (caught by the method's own
`except`, lines 221-235), `.returned c` the call returning content
`c`. Everything else inside the `try` is pure and cannot raise. -/
def synthesize_response (llm : LLMCall) (query : String)
    (web_results : Option WebResults) (file_results : Option FileResults) :
    SynthesizedResponse :=
  let context := combine_contexts web_results file_results
  match llm with
  | .raised e =>
    { query := query, answer := "Error synthesizing response: " ++ e,
      context_used := "", confidence := 0, citations := [],
      sources_web := web_results.isSome, sources_file := file_results.isSome,
      synthesis_method := "error_fallback", error := some e }
  | .unavailable =>
    { query := query, answer := simple_text_synthesis query context,
      context_used := context,
      confidence := calculate_confidence web_results file_results,
      citations := extract_citations web_results file_results,
      sources_web := web_results.isSome, sources_file := file_results.isSome,
      synthesis_method := "simple_text_fallback", error := none }
  | .returned content =>
    { query := query, answer := pyStrip content, context_used := context,
      confidence := calculate_confidence web_results file_results,
      citations := extract_citations web_results file_results,
      sources_web := web_results.isSome, sources_file := file_results.isSome,
      synthesis_method := "gemini_llm", error := none }

/-! ### Helper lemmas about the synthesizer -/

/-- A Python `for`-loop that conditionally appends one element equals a
`filter`-then-`map`. -/
theorem foldl_push_filter {α β : Type} (p : α → Bool) (g : α → β) (l : List α) :
    ∀ acc : List β,
      l.foldl (fun a r => if p r then a ++ [g r] else a) acc
        = acc ++ (l.filter p).map g := by
  induction l with
  | nil => intro acc; simp
  | cons r rest ih =>
    intro acc
    by_cases h : p r <;> simp [List.filter_cons, h, ih, List.append_assoc]

/-- A Python `for`-loop that appends one element per item equals a `map`. -/
theorem foldl_push_map {α β : Type} (g : α → β) (l : List α) :
    ∀ acc : List β,
      l.foldl (fun a r => a ++ [g r]) acc = acc ++ l.map g := by
  induction l with
  | nil => intro acc; simp
  | cons r rest ih => intro acc; simp [ih, List.append_assoc]

theorem string_length_append (s t : String) :
    (s ++ t).length = s.length + t.length := by
  cases s; cases t
  simp [String.length, String.append]

/-- `_simple_text_synthesis` never returns the empty string: both of
its branches start with a fixed non-empty prefix string. -/
theorem simple_text_synthesis_length_pos (query context : String) :
    0 < (simple_text_synthesis query context).length := by
  simp only [simple_text_synthesis]
  split
  · simp only [string_length_append]
    have h : 0 < ("Based on the available information:\n\n" : String).length := by decide
    omega
  · simp only [string_length_append]
    have h : 0 < ("I found some information related to your query '" : String).length := by
      decide
    omega

/-- The search-result list a maybe-absent web dictionary carries. -/
def webResultsOf : Option WebResults → List SearchResult
  | some w => w.results
  | none => []

/-- The retrieved chunks a maybe-absent file dictionary carries. -/
def fileChunksOf : Option FileResults → List FileSearchResult
  | some f => f.search_results
  | none => []

/-- The spec's web term of the confidence formula:
`0.6 * searchConfidence`, `0` when the source is absent. -/
def specWebTerm : Option WebResults → ℚ
  | some w => 0.6 * w.extracted_info.confidence
  | none => 0

/-- The spec's file term of the confidence formula:
`0.4 * avg(fileChunkSimilarity)`, `0` when the source is absent or has
no retrieved chunks. -/
def specFileTerm : Option FileResults → ℚ
  | some f =>
    if f.search_results ≠ [] then
      0.4 * ((f.search_results.map (fun r => r.similarity_score)).sum /
        (f.search_results.length : ℚ))
    else 0
  | none => 0

/-- **C3.** The synthesized confidence equals
`min 1 (0.6 * searchConfidence + 0.4 * avg(similarity))` with either
term `0` when its source is absent, and, for the non-negative scores
the agents produce, the value lies in `[0, 1]`. -/
theorem calculate_confidence_formula_and_bounds
    (web_results : Option WebResults) (file_results : Option FileResults)
    (hw : ∀ w, web_results = some w → 0 ≤ w.extracted_info.confidence)
    (hf : ∀ f, file_results = some f →
      ∀ r ∈ f.search_results, 0 ≤ r.similarity_score) :
    calculate_confidence web_results file_results
      = min 1 (specWebTerm web_results + specFileTerm file_results)
    ∧ 0 ≤ calculate_confidence web_results file_results
    ∧ calculate_confidence web_results file_results ≤ 1 := by
  have heq : calculate_confidence web_results file_results
      = min 1 (specWebTerm web_results + specFileTerm file_results) := by
    cases web_results <;> cases file_results <;>
      simp only [calculate_confidence, specWebTerm, specFileTerm] <;>
      (try split) <;> (first | rfl | (congr 1 <;> ring))
  have hwterm : 0 ≤ specWebTerm web_results := by
    cases web_results with
    | none => simp [specWebTerm]
    | some w =>
      simp only [specWebTerm]
      have := hw w rfl
      positivity
  have hfterm : 0 ≤ specFileTerm file_results := by
    cases file_results with
    | none => simp [specFileTerm]
    | some f =>
      simp only [specFileTerm]
      split
      · have hsum : 0 ≤ (f.search_results.map (fun r => r.similarity_score)).sum := by
          apply List.sum_nonneg
          intro x hx
          obtain ⟨r, hr, rfl⟩ := List.mem_map.mp hx
          exact hf f rfl r hr
        have hden : (0 : ℚ) ≤ (f.search_results.length : ℚ) := by positivity
        have := div_nonneg hsum hden
        linarith
      · exact le_refl 0
  refine ⟨heq, ?_, ?_⟩
  · rw [heq]
    exact le_min (by norm_num) (by linarith)
  · rw [heq]
    exact min_le_left 1 _

def confidenceWebEx : WebResults :=
  { results := [], extracted_info := { summary := "s", confidence := 2/3 } }

def confidenceFileEx : FileResults :=
  { search_results := [{ content := "c", similarity_score := 1/2 },
                       { content := "d", similarity_score := 1 }] }

/-- Witness for C3 at concrete inputs with both sources present. -/
theorem calculate_confidence_formula_witness :
    calculate_confidence (some confidenceWebEx) (some confidenceFileEx)
      = min 1 (specWebTerm (some confidenceWebEx) + specFileTerm (some confidenceFileEx))
    ∧ 0 ≤ calculate_confidence (some confidenceWebEx) (some confidenceFileEx)
    ∧ calculate_confidence (some confidenceWebEx) (some confidenceFileEx) ≤ 1 :=
  calculate_confidence_formula_and_bounds (some confidenceWebEx) (some confidenceFileEx)
    (fun w hw => by cases hw; norm_num [confidenceWebEx])
    (fun f hfq r hr => by
      cases hfq
      simp only [confidenceFileEx, List.mem_cons, List.not_mem_nil, or_false] at hr
      rcases hr with rfl | rfl <;> norm_num)

/-- **C4 (amended).** The citation list is a function of the two
structured inputs only: exactly one `web` citation per non-error
search result with a non-empty url (in order), followed by exactly one
`file` citation per retrieved chunk; and whenever the synthesis LLM is
unavailable or returns (any content whatsoever), the synthesized
response carries exactly that list, so no LLM *output* can change the
citations. (Only an LLM call that *raises* degrades the whole response
to the error fallback, whose citation list is empty — see the
counterexample.) -/
theorem extract_citations_independent_of_llm_output
    (q content : String) (web_results : Option WebResults)
    (file_results : Option FileResults) :
    extract_citations web_results file_results
      = ((webResultsOf web_results).filter citableWeb).map webCitation
        ++ (fileChunksOf file_results).map fileCitation
    ∧ (synthesize_response .unavailable q web_results file_results).citations
        = extract_citations web_results file_results
    ∧ (synthesize_response (.returned content) q web_results file_results).citations
        = extract_citations web_results file_results := by
  refine ⟨?_, rfl, rfl⟩
  cases web_results with
  | none =>
    cases file_results with
    | none => simp [extract_citations, webResultsOf, fileChunksOf]
    | some f =>
      by_cases h : f.search_results = [] <;>
        simp [extract_citations, webResultsOf, fileChunksOf, h, foldl_push_map]
  | some w =>
    cases file_results with
    | none =>
      by_cases h : w.results = [] <;>
        simp [extract_citations, webResultsOf, fileChunksOf, h, foldl_push_filter]
    | some f =>
      by_cases h : w.results = [] <;> by_cases h2 : f.search_results = [] <;>
        simp [extract_citations, webResultsOf, fileChunksOf, h, h2,
              foldl_push_filter, foldl_push_map]

/-- A web result set with one good, citable result. -/
def llmFreeWeb : WebResults :=
  { results := [{ rank := 1, title := "Example", url := "https://example.com",
                  snippet := "snip", source := "web_search" }],
    extracted_info := { summary := "s" } }

/-- Counterexample to C4 as stated: when the synthesis LLM call
raises, `synthesize_response` returns the error fallback whose
citation list is empty, even though the structured inputs demand
exactly one web citation — a *failing* LLM call does change the
citations. -/
theorem citations_lost_when_llm_raises :
    (synthesize_response (.raised "boom") "q" (some llmFreeWeb) none).citations = []
    ∧ extract_citations (some llmFreeWeb) none
        = [{ type := "web", title := "Example", url := "https://example.com",
             snippet := "snip" }]
    ∧ (synthesize_response (.raised "boom") "q" (some llmFreeWeb) none).citations
        ≠ extract_citations (some llmFreeWeb) none := by
  refine ⟨rfl, by decide, by decide⟩

/-- **C9 (amended).** When the LLM is *unavailable*, the synthesized
answer is exactly the extractive fallback over the combined context
and is never empty; when the LLM call *raises* at synthesis time, the
answer is the (non-empty) error-message string of the error fallback,
not the extractive summary. -/
theorem synthesis_fallback_answers_nonempty (query e : String)
    (web_results : Option WebResults) (file_results : Option FileResults) :
    (synthesize_response .unavailable query web_results file_results).answer
      = simple_text_synthesis query (combine_contexts web_results file_results)
    ∧ 0 < (synthesize_response .unavailable query web_results file_results).answer.length
    ∧ (synthesize_response (.raised e) query web_results file_results).answer
        = "Error synthesizing response: " ++ e
    ∧ 0 < (synthesize_response (.raised e) query web_results file_results).answer.length := by
  refine ⟨rfl, simple_text_synthesis_length_pos query _, rfl, ?_⟩
  show 0 < ("Error synthesizing response: " ++ e).length
  rw [string_length_append]
  have h : 0 < ("Error synthesizing response: " : String).length := by decide
  omega

/-- Counterexample to C9 as stated: with no context and a raising LLM
call, the returned answer is the error-message string, not the
extractive concatenation of the longest context lines. -/
theorem llm_raise_answer_not_extractive :
    (synthesize_response (.raised "boom") "q" none none).answer
      = "Error synthesizing response: boom"
    ∧ simple_text_synthesis "q" (combine_contexts none none)
      = "Based on the available information:\n\n1. No context available from any agent.\n"
    ∧ (synthesize_response (.raised "boom") "q" none none).answer
      ≠ simple_text_synthesis "q" (combine_contexts none none) := by
  refine ⟨rfl, by decide, by decide⟩

/-! ## Web search agent (src/agents/web_search_agent.py)

`WebSearchAgent.search` wraps one backend (DuckDuckGo) in a retry
loop. The backend call is an oracle indexed by the attempt number
(starting at 1, as the Python loop counts); its `raw_results` value is
either a plain string or a list of raw result dictionaries. The
sleep durations the loop performs (`time.sleep(wait_time)`) are
returned as a trace alongside the result list. -/

/-- A raw backend result dictionary (keys read with `r.get(...)`). -/
structure RawResult where
  title : Option String := none
  link : Option String := none
  url : Option String := none
  snippet : Option String := none
  deriving DecidableEq, Repr

/-- What `self.search_tool.run(query)` returned: a string (the
`isinstance(str)` branch; the final `else: str(raw_results)` branch is
the same shape) or a list of dictionaries. -/
inductive RawOutput where
  | rawStr (s : String)
  | rawList (rs : List RawResult)
  deriving DecidableEq, Repr

/-- Lines 63-68: normalize the raw output to a list of dictionaries. -/
def toRawResults : RawOutput → List RawResult
  | .rawStr s => [{ title := some "Result", snippet := some s, url := some "" }]
  | .rawList rs => rs

/-- Lines 70-80: the processed result list (`results[:max_results]`,
ranked from 1; `url` is `r.get("link", r.get("url", ""))`). -/
def processRaw (max_results : Nat) (raw : RawOutput) : List SearchResult :=
  (List.enum ((toRawResults raw).take max_results)).map (fun ir =>
    { rank := ir.1 + 1,
      title := ir.2.title.getD "No title",
      url := match ir.2.link with
             | some l => l
             | none => ir.2.url.getD "",
      snippet := ir.2.snippet.getD "No snippet available",
      source := "web_search" })

/-- Lines 85-86: `"202 ratelimit" in msg or "rate limit" in msg` on
the lowered exception text — the recoverable failures. -/
def isRateLimitError (e : String) : Bool :=
  strContains (pyLower e) "202 ratelimit" || strContains (pyLower e) "rate limit"

/-- Line 92: the synthetic entry for a non-retryable failure. -/
def searchErrorEntry (e : String) : SearchResult :=
  { rank := 1, title := "Search Error", url := "",
    snippet := "Unable to perform web search: " ++ e,
    source := "web_search", error := true }

/-- Line 94: the synthetic entry returned once every retry is spent. -/
def rateLimitExhaustedEntry : SearchResult :=
  { rank := 1, title := "Search Error", url := "",
    snippet := "Unable to perform web search after retries due to rate-limiting.",
    source := "web_search", error := true }

/-- The retry loop of `WebSearchAgent.search` (lines 57-94):
`remaining` counts the attempts left, `attempt` the 1-based attempt
number, `wait_time` the current backoff, `sleeps` the trace of sleeps
performed so far. -/
def searchLoop (max_results : Nat) (attemptCall : Nat → Except String RawOutput) :
    Nat → Nat → Nat → List Nat → List SearchResult × List Nat
  | _, _, 0, sleeps => ([rateLimitExhaustedEntry], sleeps)
  | attempt, wait_time, remaining + 1, sleeps =>
    match attemptCall attempt with
    | .ok raw => (processRaw max_results raw, sleeps)
    | .error e =>
      if isRateLimitError e then
        searchLoop max_results attemptCall (attempt + 1) (wait_time * 2) remaining
          (sleeps ++ [wait_time])
      else ([searchErrorEntry e], sleeps)

/-- `WebSearchAgent.search` (lines 52-94), returning the result list
and the trace of backoff sleeps. -/
def webAgentSearch (max_results max_retries initial_wait : Nat)
    (attemptCall : Nat → Except String RawOutput) : List SearchResult × List Nat :=
  searchLoop max_results attemptCall 1 initial_wait max_retries []

/-! ## Keyword-fallback scoring (web_search_agent.py lines 112-121 and
file_analysis_agent.py lines 342-378) -/

/-- `set(query.lower().split())`: the distinct lowered words. -/
def queryWords (query : String) : List String :=
  (pySplitWhitespace (pyLower query)).dedup

/-- `sum(1 for word in words if word in text)`. -/
def keywordMatches (words : List String) (text : String) : Nat :=
  (words.filter (fun w => strContains text w)).length

/-- Stable insertion for a descending sort by score — the behaviour of
Python's stable `list.sort(key=..., reverse=True)`. -/
def insertScoredDesc {α : Type} (score : α → ℚ) (x : α) : List α → List α
  | [] => [x]
  | y :: ys => if score y ≤ score x then x :: y :: ys else y :: insertScoredDesc score x ys

def sortScoredDesc {α : Type} (score : α → ℚ) : List α → List α
  | [] => []
  | x :: xs => insertScoredDesc score x (sortScoredDesc score xs)

/-- A scored snippet (web_search_agent.py line 119). -/
structure ScoredSnippet where
  snippet : String
  relevance_score : ℚ
  deriving DecidableEq, Repr

/-- The keyword-fallback snippet ranking of `extract_key_information`
(web_search_agent.py lines 112-121, identical in
enhanced_web_search_agent.py lines 206-216): keep snippets with at
least one keyword match, score them `matches / len(query_keywords)`,
sort descending, keep 3, truncate to 200 characters. -/
def rankedSnippets (query : String) (all_snippets : List String) : List String :=
  let query_keywords := queryWords query
  let relevant := all_snippets.filterMap (fun s =>
    let m := keywordMatches query_keywords (pyLower s)
    if 0 < m then
      some { snippet := s, relevance_score := (m : ℚ) / (query_keywords.length : ℚ) }
    else (none : Option ScoredSnippet))
  ((sortScoredDesc (fun x => x.relevance_score) relevant).take 3).map (fun s =>
    if 200 < s.snippet.length then pyTake s.snippet 200 ++ "..." else s.snippet)

/-- `WebSearchAgent.extract_key_information` (lines 96-125) in the
keyword-fallback configuration (`EMBEDDINGS_AVAILABLE == False`). -/
def extract_key_information (results : List SearchResult) (query : String) :
    ExtractedInfo :=
  if results = [] then
    { summary := "No search results found" }
  else
    let good := results.filter (fun r => !r.error)
    let sources := good.map (fun r => SourceRef.mk r.title r.url r.rank)
    let key_facts := rankedSnippets query (good.map (fun r => r.snippet))
    { summary := "Found " ++ toString sources.length ++ " relevant sources for '"
        ++ query ++ "'",
      key_facts := key_facts,
      sources := sources,
      confidence := if sources ≠ [] then min 1 ((sources.length : ℚ) / 3) else 0,
      total_results := results.length }

/-- `FileAnalysisAgent._simple_text_search` (file_analysis_agent.py
lines 342-378): keyword matching over the simple text store. -/
def simple_text_search (texts : List String) (metadatas : List ChunkMetadata)
    (query : String) (k : Nat) : List FileSearchResult :=
  let query_words := queryWords query
  let scored_chunks := (List.enum texts).filterMap (fun it =>
    let m := keywordMatches query_words (pyLower it.2)
    if 0 < m then
      some ({ content := it.2, metadata := metadatas.getD it.1 {},
              similarity_score := (m : ℚ) / (query_words.length : ℚ) } : FileSearchResult)
    else none)
  (sortScoredDesc (fun x => x.similarity_score) scored_chunks).take k

/-! ## Enhanced web search agent (src/agents/enhanced_web_search_agent.py)

The multi-backend chain: each backend function is called once, in
priority order, until enough results accumulate; the accumulated list
is then deduplicated by url and truncated. -/

/-- The accumulation loop of `EnhancedWebSearchAgent.search` (lines
161-176): `if results: all_results.extend(results); if
len(all_results) >= self.max_results: break`. Each backend's outcome
is one element of `backendResults` (each `_search_*` method catches
its own exceptions and returns a list). -/
def accumulateResults (max_results : Nat) :
    List SearchResult → List (List SearchResult) → List SearchResult
  | acc, [] => acc
  | acc, b :: rest =>
    if b = [] then accumulateResults max_results acc rest
    else
      if max_results ≤ (acc ++ b).length then acc ++ b
      else accumulateResults max_results (acc ++ b) rest

/-- The deduplication loop (lines 178-187): keep an entry whose
non-empty url was not seen before; always keep entries with empty
urls. -/
def removeDuplicateUrls : List String → List SearchResult → List SearchResult
  | _, [] => []
  | seen_urls, r :: rest =>
    if r.url ≠ "" then
      if r.url ∈ seen_urls then removeDuplicateUrls seen_urls rest
      else r :: removeDuplicateUrls (r.url :: seen_urls) rest
    else r :: removeDuplicateUrls seen_urls rest

/-- Lines 178-190: deduplicate by url, then `unique_results[:max_results]`. -/
def mergeSearchResults (max_results : Nat) (all_results : List SearchResult) :
    List SearchResult :=
  (removeDuplicateUrls [] all_results).take max_results

/-- `EnhancedWebSearchAgent.search` (lines 157-193). -/
def enhancedSearch (max_results : Nat) (backendResults : List (List SearchResult)) :
    List SearchResult :=
  mergeSearchResults max_results (accumulateResults max_results [] backendResults)

/-- `EnhancedWebSearchAgent._search_serpapi` (lines 54-85): with no
configured API key the backend returns `[]` at once, before any
request; otherwise the organic results are processed. The oracle
`organic_results` is what the HTTP response carried. -/
def search_serpapi (api_key : String) (max_results : Nat)
    (organic_results : List RawResult) : List SearchResult :=
  if api_key = "" then []
  else
    (List.enum (organic_results.take max_results)).map (fun ir =>
      { rank := ir.1 + 1,
        title := ir.2.title.getD "No title",
        url := ir.2.link.getD "",
        snippet := ir.2.snippet.getD "No snippet available",
        source := "serpapi" })

/-! ### Theorems about the retrying search -/

/-- When every attempt raises, the retry loop returns exactly one
synthetic error entry (either the non-retryable entry or the
exhaustion entry), never raising itself. -/
theorem searchLoop_all_fail (max_results : Nat)
    (attemptCall : Nat → Except String RawOutput)
    (h : ∀ i, ∃ e, attemptCall i = .error e) :
    ∀ (remaining attempt wait_time : Nat) (sleeps : List Nat),
      ∃ entry,
        (searchLoop max_results attemptCall attempt wait_time remaining sleeps).1 = [entry]
        ∧ entry.error = true ∧ entry.url = "" ∧ entry.title = "Search Error" := by
  intro remaining
  induction remaining with
  | zero =>
    intro attempt wait_time sleeps
    exact ⟨rateLimitExhaustedEntry, rfl, rfl, rfl, rfl⟩
  | succ n ih =>
    intro attempt wait_time sleeps
    obtain ⟨e, he⟩ := h attempt
    by_cases hr : isRateLimitError e = true
    · simpa only [searchLoop, he, hr, if_true] using
        ih (attempt + 1) (wait_time * 2) (sleeps ++ [wait_time])
    · exact ⟨searchErrorEntry e, by simp only [searchLoop, he, hr, if_false,
        Bool.false_eq_true, reduceIte], rfl, rfl, rfl⟩

/-- **C6.** If every backend attempt fails (a non-retryable error, or
rate limits until the retry budget is spent), `search` returns —
without raising — exactly one synthetic entry with `error = True`, an
empty url and the "Search Error" title; and fallback synthesis over
that degraded result set still yields a non-empty answer. -/
theorem search_total_failure_single_error_entry
    (max_results max_retries initial_wait : Nat) (q : String) (info : ExtractedInfo)
    (attemptCall : Nat → Except String RawOutput)
    (h : ∀ i, ∃ e, attemptCall i = .error e) :
    (webAgentSearch max_results max_retries initial_wait attemptCall).1.length = 1
    ∧ (∀ r ∈ (webAgentSearch max_results max_retries initial_wait attemptCall).1,
        r.error = true ∧ r.url = "" ∧ r.title = "Search Error")
    ∧ 0 < (synthesize_response .unavailable q
        (some { results := (webAgentSearch max_results max_retries initial_wait attemptCall).1,
                extracted_info := info })
        none).answer.length := by
  obtain ⟨entry, hfst, he, hu, ht⟩ :=
    searchLoop_all_fail max_results attemptCall h max_retries 1 initial_wait []
  refine ⟨?_, ?_, ?_⟩
  · rw [webAgentSearch, hfst]
    rfl
  · intro r hr
    rw [webAgentSearch, hfst, List.mem_singleton] at hr
    subst hr
    exact ⟨he, hu, ht⟩
  · exact simple_text_synthesis_length_pos q _

/-- Witness for C6: three rate-limited attempts and, separately, a
first-attempt hard failure each produce the single flagged entry. -/
theorem search_total_failure_witness :
    (webAgentSearch 5 3 2 (fun _ => Except.error "boom")).1.length = 1
    ∧ (webAgentSearch 5 3 2 (fun _ => Except.error "rate limit")).1.length = 1 :=
  ⟨(search_total_failure_single_error_entry 5 3 2 "q" { summary := "s" }
      (fun _ => Except.error "boom") (fun _ => ⟨"boom", rfl⟩)).1,
   (search_total_failure_single_error_entry 5 3 2 "q" { summary := "s" }
      (fun _ => Except.error "rate limit") (fun _ => ⟨"rate limit", rfl⟩)).1⟩

/-- When every attempt is rate-limited, the loop sleeps the doubling
backoff sequence and ends with the exhaustion entry. -/
theorem searchLoop_rate_limited (max_results : Nat)
    (attemptCall : Nat → Except String RawOutput)
    (h : ∀ i, ∃ e, attemptCall i = .error e ∧ isRateLimitError e = true) :
    ∀ (remaining attempt wait_time : Nat) (sleeps : List Nat),
      searchLoop max_results attemptCall attempt wait_time remaining sleeps
        = ([rateLimitExhaustedEntry],
           sleeps ++ (List.range remaining).map (fun i => wait_time * 2 ^ i)) := by
  intro remaining
  induction remaining with
  | zero => intro attempt wait_time sleeps; simp [searchLoop]
  | succ n ih =>
    intro attempt wait_time sleeps
    obtain ⟨e, he, hr⟩ := h attempt
    rw [searchLoop, he]
    simp only [hr, if_true]
    rw [ih (attempt + 1) (wait_time * 2) (sleeps ++ [wait_time])]
    congr 1
    rw [List.append_assoc]
    congr 1
    rw [List.range_succ_eq_map]
    simp only [List.map_cons, pow_zero, Nat.mul_one, List.map_map, List.cons_append,
      List.nil_append, List.cons.injEq, true_and]
    apply List.map_congr_left
    intro i _
    simp only [Function.comp_apply, pow_succ]
    ring

/-- **C7 (amended).** In the retrying search (`WebSearchAgent.search`),
a rate-limited attempt is retried after a deterministic —
jitter-free — wait of `initial_wait * 2^k` before the (k+1)-th retry,
up to `max_retries` attempts in total; once the budget is spent the
function returns the single synthetic exhaustion entry and tries no
further backend. Separately, in the multi-backend chain
(`EnhancedWebSearchAgent`), a backend whose credentials are not
configured (`_search_serpapi` with no API key) contributes no results
and consumes nothing — there is no retry budget there to consume. -/
theorem search_retry_backoff_behaviour
    (max_results max_retries initial_wait : Nat)
    (attemptCall : Nat → Except String RawOutput)
    (h : ∀ i, ∃ e, attemptCall i = .error e ∧ isRateLimitError e = true) :
    (webAgentSearch max_results max_retries initial_wait attemptCall).2
      = (List.range max_retries).map (fun i => initial_wait * 2 ^ i)
    ∧ (webAgentSearch max_results max_retries initial_wait attemptCall).1
      = [rateLimitExhaustedEntry]
    ∧ (∀ organic, search_serpapi "" max_results organic = []) := by
  rw [webAgentSearch, searchLoop_rate_limited max_results attemptCall h max_retries 1
    initial_wait []]
  exact ⟨by simp, rfl, fun organic => rfl⟩

/-- Witness for C7's amended statement at the source defaults
(`max_retries = 3`, `initial_wait = 2`). -/
theorem search_retry_backoff_witness :
    (webAgentSearch 5 3 2 (fun _ => Except.error "202 Ratelimit")).2 = [2, 4, 8]
    ∧ search_serpapi "" 5 [{ title := some "t" }] = [] := by
  have h := search_retry_backoff_behaviour 5 3 2 (fun _ => Except.error "202 Ratelimit")
    (fun _ => ⟨"202 Ratelimit", rfl, by decide⟩)
  exact ⟨by rw [h.1]; decide, h.2.2 [{ title := some "t" }]⟩

/-- Counterexample to C7 as stated: with every attempt rate-limited at
the source defaults, the search performs exactly `max_retries = 3`
attempts with the deterministic waits `[2, 4, 8]` — the wait before
the first retry (attempt 2) is `2`, strictly below the claimed
`base * 2^attempt = 2 * 2^2` (so no non-negative jitter can make the
formula hold) — and after the budget is spent the call returns the
synthetic exhaustion entry: no next backend is tried. -/
theorem search_no_next_backend_after_exhaustion :
    (webAgentSearch 5 3 2 (fun _ => Except.error "rate limit")).1
      = [rateLimitExhaustedEntry]
    ∧ (webAgentSearch 5 3 2 (fun _ => Except.error "rate limit")).2 = [2, 4, 8]
    ∧ rateLimitExhaustedEntry.error = true
    ∧ (webAgentSearch 5 3 2 (fun _ => Except.error "rate limit")).2.getD 0 0 < 2 * 2 ^ 2 := by
  refine ⟨by decide, by decide, rfl, by decide⟩

/-- **C10.** A query whose lowered, whitespace-split word set is empty
(the empty or all-whitespace query) makes both keyword-fallback
scorers return the empty list: with no words, no chunk or snippet
reaches the `matches > 0` guard, so the `matches / len(query_words)`
division is never evaluated and no division by zero can occur. -/
theorem empty_query_words_no_division
    (texts : List String) (metadatas : List ChunkMetadata)
    (results : List SearchResult) (query : String) (k : Nat)
    (h : queryWords query = []) :
    simple_text_search texts metadatas query k = []
    ∧ (extract_key_information results query).key_facts = []
    ∧ ∀ snippets, rankedSnippets query snippets = [] := by
  have hmatch : ∀ t, keywordMatches (queryWords query) t = 0 := by
    intro t
    rw [h]
    rfl
  have hrank : ∀ snippets, rankedSnippets query snippets = [] := by
    intro snippets
    have : snippets.filterMap (fun s =>
        let m := keywordMatches (queryWords query) (pyLower s)
        if 0 < m then
          some { snippet := s, relevance_score := (m : ℚ) / ((queryWords query).length : ℚ) }
        else (none : Option ScoredSnippet)) = [] := by
      rw [List.filterMap_eq_nil_iff]
      intro s _
      simp [hmatch (pyLower s)]
    simp only [rankedSnippets, this]
    rfl
  refine ⟨?_, ?_, hrank⟩
  · simp only [simple_text_search]
    have hnil : (List.enum texts).filterMap (fun it =>
        if 0 < keywordMatches (queryWords query) (pyLower it.2) then
          some ({ content := it.2, metadata := metadatas.getD it.1 {},
                  similarity_score := (keywordMatches (queryWords query) (pyLower it.2) : ℚ)
                    / ((queryWords query).length : ℚ) }
            : FileSearchResult)
        else none) = [] := by
      rw [List.filterMap_eq_nil_iff]
      intro it _
      simp [hmatch (pyLower it.2)]
    rw [hnil]
    simp [sortScoredDesc]
  · by_cases hres : results = []
    · simp [extract_key_information, hres]
    · simp only [extract_key_information, hres, if_neg, reduceIte]
      exact hrank _

/-- Witness for C10 at the whitespace-only query `"  "`. -/
theorem empty_query_words_witness :
    simple_text_search ["alpha bravo"] [] "  " 3 = []
    ∧ (extract_key_information
        [{ rank := 1, title := "t", url := "u", snippet := "s",
           source := "web_search" }] "  ").key_facts = [] :=
  ⟨(empty_query_words_no_division ["alpha bravo"] [] [] "  " 3 (by decide)).1,
   (empty_query_words_no_division [] []
      [{ rank := 1, title := "t", url := "u", snippet := "s", source := "web_search" }]
      "  " 3 (by decide)).2.1⟩


/-! ### Theorems about the deduplicating merge -/

/-- Unfolding: an empty-url entry is always kept. -/
theorem removeDuplicateUrls_cons_empty (seen : List String) (r : SearchResult)
    (rest : List SearchResult) (h : r.url = "") :
    removeDuplicateUrls seen (r :: rest) = r :: removeDuplicateUrls seen rest := by
  simp [removeDuplicateUrls, h]

/-- Unfolding: a non-empty url already seen is skipped. -/
theorem removeDuplicateUrls_cons_seen (seen : List String) (r : SearchResult)
    (rest : List SearchResult) (h : r.url ≠ "") (hs : r.url ∈ seen) :
    removeDuplicateUrls seen (r :: rest) = removeDuplicateUrls seen rest := by
  simp [removeDuplicateUrls, h, hs]

/-- Unfolding: a new non-empty url is kept and marked as seen. -/
theorem removeDuplicateUrls_cons_new (seen : List String) (r : SearchResult)
    (rest : List SearchResult) (h : r.url ≠ "") (hs : r.url ∉ seen) :
    removeDuplicateUrls seen (r :: rest)
      = r :: removeDuplicateUrls (r.url :: seen) rest := by
  simp [removeDuplicateUrls, h, hs]

/-- How many entries with url `u ≠ ""` survive deduplication: none if
`u` was already seen, otherwise exactly one when the input has any. -/
theorem removeDuplicateUrls_countP (u : String) (hu : u ≠ "") :
    ∀ (l : List SearchResult) (seen : List String),
      (removeDuplicateUrls seen l).countP (fun r => r.url == u)
        = if u ∈ seen then 0
          else if l.any (fun r => r.url == u) then 1 else 0 := by
  intro l
  induction l with
  | nil =>
    intro seen
    by_cases h : u ∈ seen <;> simp [removeDuplicateUrls, h]
  | cons r rest ih =>
    intro seen
    by_cases hempty : r.url = ""
    · have hru : (r.url == u) = false :=
        beq_eq_false_iff_ne.mpr (fun hc => hu (hempty ▸ hc).symm)
      rw [removeDuplicateUrls_cons_empty seen r rest hempty, List.countP_cons,
        ih seen, List.any_cons, hru]
      simp
    · by_cases hseen : r.url ∈ seen
      · rw [removeDuplicateUrls_cons_seen seen r rest hempty hseen, ih seen,
          List.any_cons]
        by_cases huseen : u ∈ seen
        · simp [huseen]
        · have hru : (r.url == u) = false :=
            beq_eq_false_iff_ne.mpr (fun hc => huseen (hc ▸ hseen))
          rw [hru]
          simp
      · rw [removeDuplicateUrls_cons_new seen r rest hempty hseen, List.countP_cons,
          ih (r.url :: seen), List.any_cons]
        by_cases hru : r.url = u
        · have hbe : (r.url == u) = true := beq_iff_eq.mpr hru
          have humem : u ∈ r.url :: seen := by
            rw [hru]
            exact List.mem_cons_self u seen
          have huseen : u ∉ seen := fun hc => hseen (hru ▸ hc)
          rw [hbe]
          simp [humem, huseen]
        · have hbe : (r.url == u) = false := beq_eq_false_iff_ne.mpr hru
          have humem : (u ∈ r.url :: seen) ↔ u ∈ seen := by
            simp [List.mem_cons, Ne.symm hru]
          rw [hbe]
          by_cases huseen : u ∈ seen
          · simp [humem, huseen]
          · simp [humem, huseen]

/-- Deduplication keeps a subsequence of the input (relative order is
preserved). -/
theorem removeDuplicateUrls_sublist :
    ∀ (l : List SearchResult) (seen : List String),
      List.Sublist (removeDuplicateUrls seen l) l := by
  intro l
  induction l with
  | nil => intro seen; simp [removeDuplicateUrls]
  | cons r rest ih =>
    intro seen
    by_cases hempty : r.url = ""
    · rw [removeDuplicateUrls_cons_empty seen r rest hempty]
      exact (ih seen).cons₂ r
    · by_cases hseen : r.url ∈ seen
      · rw [removeDuplicateUrls_cons_seen seen r rest hempty hseen]
        exact (ih seen).cons r
      · rw [removeDuplicateUrls_cons_new seen r rest hempty hseen]
        exact (ih (r.url :: seen)).cons₂ r

/-- The survivor for a not-yet-seen url is the input's first entry
with that url. -/
theorem removeDuplicateUrls_find (u : String) (hu : u ≠ "") :
    ∀ (l : List SearchResult) (seen : List String), u ∉ seen →
      (removeDuplicateUrls seen l).find? (fun r => r.url == u)
        = l.find? (fun r => r.url == u) := by
  intro l
  induction l with
  | nil => intro seen _; simp [removeDuplicateUrls]
  | cons r rest ih =>
    intro seen huseen
    by_cases hempty : r.url = ""
    · have hru : (r.url == u) = false :=
        beq_eq_false_iff_ne.mpr (fun hc => hu (hempty ▸ hc).symm)
      rw [removeDuplicateUrls_cons_empty seen r rest hempty,
        List.find?_cons_of_neg _ (by simp [hru]),
        List.find?_cons_of_neg _ (by simp [hru])]
      exact ih seen huseen
    · by_cases hseen : r.url ∈ seen
      · have hru : (r.url == u) = false :=
          beq_eq_false_iff_ne.mpr (fun hc => huseen (hc ▸ hseen))
        rw [removeDuplicateUrls_cons_seen seen r rest hempty hseen,
          List.find?_cons_of_neg _ (by simp [hru])]
        exact ih seen huseen
      · by_cases hru : r.url = u
        · have hbe : (r.url == u) = true := beq_iff_eq.mpr hru
          rw [removeDuplicateUrls_cons_new seen r rest hempty hseen,
            List.find?_cons_of_pos _ (by simp [hbe]),
            List.find?_cons_of_pos _ (by simp [hbe])]
        · have hbe : (r.url == u) = false := beq_eq_false_iff_ne.mpr hru
          rw [removeDuplicateUrls_cons_new seen r rest hempty hseen,
            List.find?_cons_of_neg _ (by simp [hbe]),
            List.find?_cons_of_neg _ (by simp [hbe])]
          exact ih (r.url :: seen) (by
            simp only [List.mem_cons, not_or]
            exact ⟨Ne.symm hru, huseen⟩)

/-- **C5 (amended).** For an accumulated list holding two (or more)
entries with the same non-empty url, the deduplication step keeps
exactly one entry with that url — the first occurrence, in input
order — and the final merged output (deduplicated list truncated to
`max_results`) has length at most `max_results` and contains at most
one entry with that url (the truncation can drop it entirely; see the
counterexample). -/
theorem merge_dedup_by_url_first_occurrence
    (all_results : List SearchResult) (max_results : Nat) (u : String)
    (hu : u ≠ "")
    (h2 : 2 ≤ all_results.countP (fun r => r.url == u)) :
    (removeDuplicateUrls [] all_results).countP (fun r => r.url == u) = 1
    ∧ (removeDuplicateUrls [] all_results).find? (fun r => r.url == u)
        = all_results.find? (fun r => r.url == u)
    ∧ List.Sublist (removeDuplicateUrls [] all_results) all_results
    ∧ (mergeSearchResults max_results all_results).countP (fun r => r.url == u) ≤ 1
    ∧ (mergeSearchResults max_results all_results).length ≤ max_results := by
  have hpos : 0 < all_results.countP (fun r => r.url == u) := by omega
  have hany : all_results.any (fun r => r.url == u) = true := by
    rcases List.countP_pos_iff.mp hpos with ⟨a, ha, hpa⟩
    exact List.any_eq_true.mpr ⟨a, ha, hpa⟩
  have hcount : (removeDuplicateUrls [] all_results).countP (fun r => r.url == u) = 1 := by
    rw [removeDuplicateUrls_countP u hu all_results []]
    simp [hany]
  refine ⟨hcount, removeDuplicateUrls_find u hu all_results [] (List.not_mem_nil u),
    removeDuplicateUrls_sublist all_results [], ?_, ?_⟩
  · calc (mergeSearchResults max_results all_results).countP (fun r => r.url == u)
        ≤ (removeDuplicateUrls [] all_results).countP (fun r => r.url == u) :=
          List.Sublist.countP_le _ (List.take_sublist _ _)
      _ = 1 := hcount
  · exact List.length_take_le _ _

def resultWithUrl (u : String) : SearchResult :=
  { rank := 1, title := "t", url := u, snippet := "s", source := "duckduckgo" }

/-- Witness for C5's amended statement: a three-entry accumulation with
a duplicated url keeps exactly one copy inside the cap. -/
theorem merge_dedup_witness :
    (removeDuplicateUrls []
      [resultWithUrl "a", resultWithUrl "b", resultWithUrl "a"]).countP
        (fun r => r.url == "a") = 1
    ∧ (mergeSearchResults 5
        [resultWithUrl "a", resultWithUrl "b", resultWithUrl "a"]).countP
          (fun r => r.url == "a") ≤ 1 := by
  have h := merge_dedup_by_url_first_occurrence
    [resultWithUrl "a", resultWithUrl "b", resultWithUrl "a"] 5 "a"
    (by decide) (by decide)
  exact ⟨h.1, h.2.2.2.1⟩

/-- The nine-entry accumulation a four-result backend followed by a
five-result backend produces, with the url `"u8"` appearing twice. -/
def accumulationBeyondCap : List SearchResult :=
  [resultWithUrl "u1", resultWithUrl "u2", resultWithUrl "u3", resultWithUrl "u4",
   resultWithUrl "u5", resultWithUrl "u6", resultWithUrl "u7", resultWithUrl "u8",
   resultWithUrl "u8"]

/-- Counterexample to C5 as stated: this accumulated list (reachable
from the accumulation loop with `max_results = 5`) holds the non-empty
url `"u8"` twice, yet the merged output contains zero — not exactly
one — entries with that url, because deduplication leaves eight unique
entries and the `[:max_results]` truncation drops the eighth. -/
theorem merge_truncation_can_drop_duplicated_url :
    accumulationBeyondCap.countP (fun r => r.url == "u8") = 2
    ∧ ("u8" : String) ≠ ""
    ∧ accumulateResults 5 []
        [[resultWithUrl "u1", resultWithUrl "u2", resultWithUrl "u3", resultWithUrl "u4"],
         [resultWithUrl "u5", resultWithUrl "u6", resultWithUrl "u7", resultWithUrl "u8",
          resultWithUrl "u8"]] = accumulationBeyondCap
    ∧ (mergeSearchResults 5 accumulationBeyondCap).countP (fun r => r.url == "u8") = 0 := by
  refine ⟨by decide, by decide, by decide, by decide⟩

/-! ## Orchestrator (src/orchestrator.py)

The LangGraph workflow is a fixed four-node pipeline: router →
{web_search, file_analysis} → synthesizer → END, with each node
wrapping its agent call in `try/except`. Each agent call is an oracle
(`.error e` = the call raising with message `e`); the workflow itself
is then a total function of the oracles. -/

/-- The `AgentState` TypedDict (orchestrator.py lines 17-27); the
LangChain `messages` list is carried but never read and not modelled. -/
structure AgentState where
  query : String
  file_paths : List String
  agent_choice : String
  reasoning : String
  web_results : Option WebResults
  file_results : Option FileResults
  final_response : Option SynthesizedResponse
  error : Option String
  deriving Repr

/-- The degraded web dictionary of `_web_search_node`'s `except`
(orchestrator.py lines 127-131). -/
def errorWebResults (e : String) : WebResults :=
  { results := [], extracted_info := { summary := "Web search failed: " ++ e },
    error := some e }

/-- The degraded file dictionary of `_file_analysis_node`'s `except`
(orchestrator.py lines 162-169). -/
def errorFileResults (e : String) : FileResults :=
  { error := some e }

/-- The empty file dictionary built when no files are attached
(orchestrator.py lines 145-154). -/
def emptyFileResults (query : String) : FileResults :=
  { query := query, agent_type := "file_analysis" }

/-- The degraded response of `_synthesizer_node`'s `except`
(orchestrator.py lines 190-196). -/
def nodeErrorResponse (query e : String) : SynthesizedResponse :=
  { query := query, answer := "Error synthesizing response: " ++ e,
    confidence := 0, citations := [], error := some e }

/-- `MultiAgentOrchestrator._router_node` (lines 95-113). -/
def router_node (routerCall : Except String (String × String))
    (st : AgentState) : AgentState :=
  match routerCall with
  | .ok cr => { st with agent_choice := cr.1, reasoning := cr.2 }
  | .error e => { st with error := some ("Router error: " ++ e), agent_choice := "error" }

/-- `MultiAgentOrchestrator._web_search_node` (lines 115-133). -/
def web_search_node (webCall : Except String WebResults)
    (st : AgentState) : AgentState :=
  match webCall with
  | .ok w => { st with web_results := some w }
  | .error e => { st with web_results := some (errorWebResults e) }

/-- `MultiAgentOrchestrator._file_analysis_node` (lines 135-171): with
no attached files the literal empty dictionary is built and the agent
is not called. -/
def file_analysis_node (fileCall : Except String FileResults)
    (st : AgentState) : AgentState :=
  if st.file_paths ≠ [] then
    match fileCall with
    | .ok f => { st with file_results := some f }
    | .error e => { st with file_results := some (errorFileResults e) }
  else
    { st with file_results := some (emptyFileResults st.query) }

/-- `MultiAgentOrchestrator._synthesizer_node` (lines 173-198). -/
def synthesizer_node (synthCall : Except String SynthesizedResponse)
    (st : AgentState) : AgentState :=
  match synthCall with
  | .ok r => { st with final_response := some r }
  | .error e => { st with final_response := some (nodeErrorResponse st.query e) }

/-- `MultiAgentOrchestrator._route_decision` (lines 200-213). -/
def route_decision (st : AgentState) : String :=
  if st.agent_choice = "error" then "error"
  else if st.agent_choice = "WEB_SEARCH" then "web_search"
  else if st.agent_choice = "FILE_ANALYSIS" then "file_analysis"
  else if st.agent_choice = "BOTH" then "both"
  else "error"

/-- `MultiAgentOrchestrator._after_web_search` (lines 215-224). -/
def after_web_search (st : AgentState) : String :=
  if st.agent_choice = "BOTH" then "file_analysis" else "synthesizer"

/-- The per-query outcomes of the four agent calls the nodes make. -/
structure StageOracles where
  routerCall : Except String (String × String)
  webCall : Except String WebResults
  fileCall : Except String FileResults
  synthCall : Except String SynthesizedResponse

/-- `self.workflow.invoke(initial_state)`: the compiled graph of
`_build_workflow` (lines 42-93) — router, then the conditional edges
("web_search"/"both" enter web search, "both" chains into file
analysis, "file_analysis" goes there directly, "error" ends), then the
synthesizer, then END. -/
def workflow_invoke (o : StageOracles) (st0 : AgentState) : AgentState :=
  let st1 := router_node o.routerCall st0
  let d := route_decision st1
  if d = "web_search" || d = "both" then
    let st2 := web_search_node o.webCall st1
    if after_web_search st2 = "file_analysis" then
      synthesizer_node o.synthCall (file_analysis_node o.fileCall st2)
    else
      synthesizer_node o.synthCall st2
  else if d = "file_analysis" then
    synthesizer_node o.synthCall (file_analysis_node o.fileCall st1)
  else
    st1

/-- The result dictionary `process_query` returns (lines 267-277).
`final_response` keeps the `final_state.get('final_response', {})`
read as an `Option` (`none` = the `{}` default). -/
structure QueryResult where
  query : String
  file_paths : List String
  agent_choice : String
  reasoning : String
  final_response : Option SynthesizedResponse
  web_results : Option WebResults
  file_results : Option FileResults
  error : Option String
  deriving Repr

/-- `MultiAgentOrchestrator.process_query` (lines 231-288): build the
initial state, invoke the workflow, project the result dictionary.
Every node catches its agent's exceptions, so the workflow is total
and the outer `except` (lines 281-288) is never reached. -/
def process_query (o : StageOracles) (query : String) (file_paths : List String) :
    QueryResult :=
  let initial : AgentState :=
    { query := query, file_paths := file_paths, agent_choice := "", reasoning := "",
      web_results := none, file_results := none, final_response := none, error := none }
  let fs := workflow_invoke o initial
  { query := query, file_paths := file_paths, agent_choice := fs.agent_choice,
    reasoning := fs.reasoning, final_response := fs.final_response,
    web_results := fs.web_results, file_results := fs.file_results, error := fs.error }

/-- What the synthesizer stage leaves in `final_response`: the
synthesizer's own return value, or the node's degraded response. -/
def finalOf (synthCall : Except String SynthesizedResponse) (query : String) :
    SynthesizedResponse :=
  match synthCall with
  | .ok r => r
  | .error e => nodeErrorResponse query e

/-- **C1.** `process_query` is total over every combination of stage
outcomes — no exception reaches the caller — and always returns the
structured result dictionary echoing the query; a failing router
records its error in the result's `error` field (short-circuiting to
END per the graph's `"error"` edge), a failing web-search or
file-analysis stage records its error inside that stage's result
dictionary while the pipeline still reaches synthesis, and a failing
synthesizer yields the degraded final response carrying its error. -/
theorem process_query_returns_structured_result
    (o : StageOracles) (q : String) (fp : List String) :
    (process_query o q fp).query = q
    ∧ (process_query o q fp).file_paths = fp
    ∧ (∀ e, o.routerCall = .error e →
        (process_query o q fp).error = some ("Router error: " ++ e)
        ∧ (process_query o q fp).agent_choice = "error"
        ∧ (process_query o q fp).final_response = none)
    ∧ (∀ c r e, o.routerCall = .ok (c, r) → (c = "WEB_SEARCH" ∨ c = "BOTH") →
        o.webCall = .error e →
        (process_query o q fp).web_results = some (errorWebResults e)
        ∧ (errorWebResults e).error = some e
        ∧ (process_query o q fp).final_response = some (finalOf o.synthCall q))
    ∧ (∀ c r e, o.routerCall = .ok (c, r) →
        (c = "FILE_ANALYSIS" ∨ c = "BOTH") → fp ≠ [] →
        o.fileCall = .error e →
        (process_query o q fp).file_results = some (errorFileResults e)
        ∧ (errorFileResults e).error = some e
        ∧ (process_query o q fp).final_response = some (finalOf o.synthCall q))
    ∧ (∀ c r e, o.routerCall = .ok (c, r) →
        (c = "WEB_SEARCH" ∨ c = "FILE_ANALYSIS" ∨ c = "BOTH") →
        o.synthCall = .error e →
        (process_query o q fp).final_response = some (nodeErrorResponse q e)
        ∧ (nodeErrorResponse q e).error = some e
        ∧ (nodeErrorResponse q e).answer = "Error synthesizing response: " ++ e) := by
  obtain ⟨router, web, file, synth⟩ := o
  refine ⟨?_, ?_, ?_, ?_, ?_, ?_⟩
  · cases router with
    | ok cr =>
      by_cases h1 : cr.1 = "WEB_SEARCH" <;> by_cases h2 : cr.1 = "BOTH" <;>
        by_cases h3 : cr.1 = "FILE_ANALYSIS" <;> by_cases h4 : cr.1 = "error" <;>
        by_cases h5 : fp ≠ [] <;>
        cases web <;> cases file <;> cases synth <;>
        simp_all [process_query, workflow_invoke, router_node, web_search_node,
          file_analysis_node, synthesizer_node, route_decision, after_web_search]
    | error e =>
      simp [process_query, workflow_invoke, router_node, route_decision]
  · cases router with
    | ok cr =>
      by_cases h1 : cr.1 = "WEB_SEARCH" <;> by_cases h2 : cr.1 = "BOTH" <;>
        by_cases h3 : cr.1 = "FILE_ANALYSIS" <;> by_cases h4 : cr.1 = "error" <;>
        by_cases h5 : fp ≠ [] <;>
        cases web <;> cases file <;> cases synth <;>
        simp_all [process_query, workflow_invoke, router_node, web_search_node,
          file_analysis_node, synthesizer_node, route_decision, after_web_search]
    | error e =>
      simp [process_query, workflow_invoke, router_node, route_decision]
  · intro e he
    subst he
    simp [process_query, workflow_invoke, router_node, route_decision]
  · intro c r e hr hc he
    subst hr
    subst he
    rcases hc with hc | hc <;> subst hc <;>
      cases file <;> cases synth <;> by_cases h5 : fp ≠ [] <;>
      simp_all [process_query, workflow_invoke, router_node, web_search_node,
        file_analysis_node, synthesizer_node, route_decision, after_web_search,
        finalOf, errorWebResults, errorFileResults, nodeErrorResponse]
  · intro c r e hr hc hfp he
    subst hr
    subst he
    rcases hc with hc | hc <;> subst hc <;>
      cases web <;> cases synth <;>
      simp_all [process_query, workflow_invoke, router_node, web_search_node,
        file_analysis_node, synthesizer_node, route_decision, after_web_search,
        finalOf, errorWebResults, errorFileResults, nodeErrorResponse]
  · intro c r e hr hc he
    subst hr
    subst he
    rcases hc with hc | hc | hc <;> subst hc <;>
      cases web <;> cases file <;> by_cases h5 : fp ≠ [] <;>
      simp_all [process_query, workflow_invoke, router_node, web_search_node,
        file_analysis_node, synthesizer_node, route_decision, after_web_search,
        finalOf, errorWebResults, errorFileResults, nodeErrorResponse]

/-! ## Vector store (src/utils/vector_store.py)

`VectorStoreManager` keeps three per-file-name maps: the FAISS index
(modelled by the chunk list it was built from), the split documents,
and the raw full text used by the keyword fallback. The loader, the
splitter and the FAISS build are oracles: the loader may raise
(unsupported type, poppler/OCR errors, `load()` failures), the
splitter is the deterministic `RecursiveCharacterTextSplitter`, and
the embedding build may raise. -/

/-- A loaded document (only its `page_content` matters here). -/
structure Doc where
  page_content : String
  deriving DecidableEq, Repr

/-- The three maps of `VectorStoreManager.__init__` (lines 28-35). -/
structure VectorStoreManager where
  vector_stores : String → Option (List Doc)
  documents : String → Option (List Doc)
  fallback_texts : String → Option String

/-- Point update of a per-file-name map (`self.m[file_name] = v`). -/
def mapUpdate {α : Type} (m : String → Option α) (k : String) (v : α) :
    String → Option α :=
  fun n => if n = k then some v else m n

/-- The `ValueError` message of the outer `except` (line 118). -/
def loadFailureMsg (file_name e : String) : String :=
  "Failed to load " ++ file_name ++ ": " ++ e ++
    ". Try a text-based file or install poppler/Tesseract for PDFs."

/-- The `ValueError` raised when the loader extracts nothing (line 96). -/
def noContentMsg (file_name : String) : String :=
  "No content extracted from " ++ file_name ++
    ". If scanned PDF, ensure OCR is set up with Tesseract."

/-- `VectorStoreManager.load_and_embed_file` (lines 65-118). `loaded`
is the outcome of loader selection plus `loader.load()` (or the OCR
path); `split_documents` the splitter; `faiss_build` the
`FAISS.from_documents` call, which may raise. Returns the new state
and either `.ok true` (the Python `return True`) or `.error msg` (the
re-raised `ValueError`). Mirrors the source's order: the fallback
text is stored *before* splitting and embedding. -/
def load_and_embed_file (st : VectorStoreManager) (file_name : String)
    (loaded : Except String (List Doc))
    (split_documents : List Doc → List Doc)
    (faiss_build : List Doc → Except String Unit) :
    VectorStoreManager × Except String Bool :=
  match loaded with
  | .error e => (st, .error (loadFailureMsg file_name e))
  | .ok docs =>
    if docs = [] then
      (st, .error (loadFailureMsg file_name (noContentMsg file_name)))
    else
      let full_text := String.intercalate " " (docs.map Doc.page_content)
      let st1 := { st with
        fallback_texts := mapUpdate st.fallback_texts file_name full_text }
      let splits := split_documents docs
      if splits ≠ [] then
        match faiss_build splits with
        | .ok _ =>
          ({ st1 with
              vector_stores := mapUpdate st1.vector_stores file_name splits,
              documents := mapUpdate st1.documents file_name splits }, .ok true)
        | .error e => (st1, .error (loadFailureMsg file_name e))
      else
        (st1, .ok true)

/-! The file-analysis agent's sibling store
(`FileAnalysisAgent.process_files`, file_analysis_agent.py lines
380-453): one store for the whole call, assigned from scratch on
every call — the previous store is overwritten before it is ever
read. `extractions` are the per-file extraction outcomes
(`success`, extracted text); `chunker` the configured splitter. -/

/-- The chunk list `process_files` accumulates (lines 391-424): chunks
of every successfully extracted, non-blank text, in file order. -/
def process_files_chunks (extractions : List (Bool × String))
    (chunker : String → List String) : List String :=
  (extractions.filter (fun e => e.1 && pyStrip e.2 ≠ "")).bind (fun e => chunker e.2)

/-- The store `process_files` leaves behind (lines 426-436): built
from this call's chunks alone, or `None` when nothing was extracted.
The previous store value is a parameter only to state that it is
ignored — the source assigns `self.vectorstore` before reading it. -/
def process_files_store (previous : Option (List String))
    (extractions : List (Bool × String)) (chunker : String → List String) :
    Option (List String) :=
  let all_texts := process_files_chunks extractions chunker
  if all_texts ≠ [] then some all_texts else none

/-- **C8 (amended).** Per-file-name index state under ingest:
(a) when the new content yields at least one chunk and the embedding
build succeeds, re-ingesting a name replaces its index entirely with
exactly the new content's chunk list — equal to a fresh ingest of the
same content into any other state, with no old chunks accumulated;
(b) after any ingest outcome the name's index is either its previous
value or the complete new chunk list — never a partially built index;
(c) ingest touches no other name; a failed load touches nothing.
When the new content yields no chunks the old index survives (see the
counterexample), so replacement holds only on the chunk-producing
path. In the file-analysis agent's single store, the rebuilt store
depends only on the current call's inputs, never on the previous
store. -/
theorem load_and_embed_replacement_and_completeness
    (st st2 : VectorStoreManager) (file_name : String) (docs : List Doc)
    (split_documents : List Doc → List Doc)
    (faiss_build : List Doc → Except String Unit) :
    (docs ≠ [] → split_documents docs ≠ [] → faiss_build (split_documents docs) = .ok () →
      (load_and_embed_file st file_name (.ok docs) split_documents faiss_build).1.vector_stores
          file_name
        = some (split_documents docs)
      ∧ (load_and_embed_file st file_name (.ok docs) split_documents
            faiss_build).1.vector_stores file_name
        = (load_and_embed_file st2 file_name (.ok docs) split_documents
            faiss_build).1.vector_stores file_name)
    ∧ (∀ loaded,
        (load_and_embed_file st file_name loaded split_documents
            faiss_build).1.vector_stores file_name = st.vector_stores file_name
        ∨ (∃ ds, loaded = .ok ds
            ∧ (load_and_embed_file st file_name loaded split_documents
                faiss_build).1.vector_stores file_name = some (split_documents ds)))
    ∧ (∀ loaded n, n ≠ file_name →
        (load_and_embed_file st file_name loaded split_documents
            faiss_build).1.vector_stores n = st.vector_stores n
        ∧ (load_and_embed_file st file_name loaded split_documents
            faiss_build).1.fallback_texts n = st.fallback_texts n)
    ∧ (∀ e, (load_and_embed_file st file_name (.error e) split_documents
        faiss_build).1 = st)
    ∧ (∀ previous1 previous2 extractions chunker,
        process_files_store previous1 extractions chunker
          = process_files_store previous2 extractions chunker) := by
  refine ⟨?_, ?_, ?_, fun e => rfl, fun p1 p2 ex ch => rfl⟩
  · intro hdocs hsplits hbuild
    constructor <;>
      simp [load_and_embed_file, hdocs, hsplits, hbuild, mapUpdate]
  · intro loaded
    match loaded with
    | .error e => exact Or.inl rfl
    | .ok ds =>
      by_cases hdocs : ds = []
      · exact Or.inl (by simp [load_and_embed_file, hdocs])
      · by_cases hsplits : split_documents ds = []
        · exact Or.inl (by simp [load_and_embed_file, hdocs, hsplits])
        · match hb : faiss_build (split_documents ds) with
          | .ok u =>
            refine Or.inr ⟨ds, rfl, ?_⟩
            simp [load_and_embed_file, hdocs, hsplits, hb, mapUpdate]
          | .error e =>
            exact Or.inl (by simp [load_and_embed_file, hdocs, hsplits, hb])
  · intro loaded n hn
    match loaded with
    | .error e => exact ⟨rfl, rfl⟩
    | .ok ds =>
      by_cases hdocs : ds = []
      · simp [load_and_embed_file, hdocs]
      · by_cases hsplits : split_documents ds = []
        · simp [load_and_embed_file, hdocs, hsplits, mapUpdate, hn]
        · match hb : faiss_build (split_documents ds) with
          | .ok u => simp [load_and_embed_file, hdocs, hsplits, hb, mapUpdate, hn]
          | .error e => simp [load_and_embed_file, hdocs, hsplits, hb, mapUpdate, hn]

/-- A state holding the successfully built index of an earlier ingest
of `"f.txt"`. -/
def priorStore : VectorStoreManager :=
  { vector_stores := fun n => if n = "f.txt" then some [{ page_content := "old chunk" }] else none,
    documents := fun n => if n = "f.txt" then some [{ page_content := "old chunk" }] else none,
    fallback_texts := fun n => if n = "f.txt" then some "old text" else none }

/-- The state with nothing ingested. -/
def freshStore : VectorStoreManager :=
  { vector_stores := fun _ => none, documents := fun _ => none,
    fallback_texts := fun _ => none }

/-- A splitter outcome the source anticipates (line 113: "No splits
generated; using full-text fallback only"): whitespace-only content
splits into no chunks. -/
def emptySplitter : List Doc → List Doc := fun _ => []

def okBuild : List Doc → Except String Unit := fun _ => .ok ()

/-- Counterexample to C8 as stated: re-ingesting `"f.txt"` with
content whose split yields no chunks *succeeds* (`return True`, the
source's full-text-fallback branch), yet the old index survives under
that name while a fresh ingest of the same content stores nothing —
the chunk set after re-ingest differs from a fresh ingest of the new
content, so the re-ingest did not replace the name's index. -/
theorem reingest_with_empty_splits_keeps_old_index :
    (load_and_embed_file priorStore "f.txt" (.ok [{ page_content := " " }])
        emptySplitter okBuild).2 = .ok true
    ∧ (load_and_embed_file priorStore "f.txt" (.ok [{ page_content := " " }])
        emptySplitter okBuild).1.vector_stores "f.txt"
      = some [{ page_content := "old chunk" }]
    ∧ (load_and_embed_file freshStore "f.txt" (.ok [{ page_content := " " }])
        emptySplitter okBuild).1.vector_stores "f.txt" = none
    ∧ (load_and_embed_file priorStore "f.txt" (.ok [{ page_content := " " }])
        emptySplitter okBuild).1.fallback_texts "f.txt" = some " " := by
  refine ⟨rfl, rfl, rfl, rfl⟩
